import Mathlib

/-!
Shallow embedding of `src/app.rs` of the wasmtime-poc repository: the two-phase
application context (`UninitializedAppContext.new`, `initialize_modules`) and the
two supervisors over the initialized context (`run_all_modules`,
`cleanup_finished_modules`).

Modelling conventions:
* The module mapping (`HashMap<String, _>` iterated with `iter_mut`) is an
  association list processed in its iteration order.
* Outcomes of calls into external collaborators (the filesystem, the wasmtime
  engine, the MQTT client, tokio task joins) are recorded as per-module oracle
  fields of type `Except String _`; the supervisor code under `src/` only
  branches on these outcomes, which is what we embed.
* Machine effects that the claims quantify over (spawning a task, sending the
  shutdown signal, awaiting a task, logging) are made observable as events in a
  trace that each operation returns alongside its state change.
* `anyhow::Result<T>` becomes `Except String T`; `Result<(), wasmtime::Trap>`
  becomes `Except String Unit` with the trap payload a string.
-/

namespace WasmtimePoc

/-- Decidable equality for `Except`, so the embedding stays executable and
concrete witnesses can be settled by `decide`. -/
instance instDecEqExcept {ε α : Type} [DecidableEq ε] [DecidableEq α] :
    DecidableEq (Except ε α) := fun a b =>
  match a, b with
  | Except.error e, Except.error f =>
    if h : e = f then isTrue (by rw [h])
    else isFalse (by intro hh; cases hh; exact h rfl)
  | Except.error _, Except.ok _ => isFalse (by intro h; cases h)
  | Except.ok _, Except.error _ => isFalse (by intro h; cases h)
  | Except.ok x, Except.ok y =>
    if h : x = y then isTrue (by rw [h])
    else isFalse (by intro hh; cases hh; exact h rfl)

/-- `Result<(), wasmtime::Trap>`: the outcome of one wasm execution
(`Ok(())` on normal return, `Err(trap)` on a trap/fault). -/
abbrev WasmResult := Except String Unit

/-- Model of a `tokio::task::JoinHandle<Result<(), wasmtime::Trap>>` for the
blocking execution task: whether `is_finished()` currently reports true, and
the outcome of `.await`ing it (outer `Except.error` is a `JoinError` from the
task system itself; the payload is the task's own result). -/
structure ExecHandle where
  isFinished : Bool
  joinResult : Except String WasmResult
  deriving Repr, DecidableEq

/-- Model of the `MqttRuntime` value produced in `module.rs` by a successful
connection attempt, restricted to the behaviours `app.rs` observes once the
event-loop task has been spawned from it: the outcome of sending
`RuntimeEvent::RuntimeTaskStop` on the control channel, and the outcome of
`.await`ing the event-loop task handle (outer `Except.error` is a `JoinError`;
the inner `Except` is the loop's own `anyhow::Result<()>`, which `app.rs` only
logs). -/
structure MqttRuntime where
  sendResult : Except String Unit
  loopJoin : Except String (Except String Unit)
  deriving Repr, DecidableEq

/-- `MqttEventLoopTaskInfo` from `app.rs`: the shutdown-signal sender plus the
spawned event-loop task handle, modelled by the observable outcomes of using
them. -/
structure MqttEventLoopTaskInfo where
  sendResult : Except String Unit
  loopJoin : Except String (Except String Unit)
  deriving Repr, DecidableEq

/-- `ModuleRuntimeConfig` (from `module.rs`, opaque to `app.rs` except for the
optional messaging sub-configuration that `initialize_mqtt_for_module`
branches on). -/
structure ModuleRuntimeConfig where
  mqtt : Option Unit
  deriving Repr, DecidableEq

/-- `InitializedModule<WasmModuleStore, ModuleRuntimeConfig>`: the per-module
compiled template, together with the oracle outcomes of the external calls
`run_all_modules` makes when starting this module:
`mqttConnectOutcome` (what a messaging connection attempt would yield),
`instantiateResult` (`linker.instantiate`), `startResolve`
(`instance.get_typed_func::<(), ()>("start")`), and `execHandle`
(the handle `tokio::task::spawn_blocking` returns for the entry call). -/
structure InitializedModule where
  runtime_config : ModuleRuntimeConfig
  mqttConnectOutcome : Except String MqttRuntime
  instantiateResult : Except String Unit
  startResolve : Except String Unit
  execHandle : ExecHandle
  deriving Repr, DecidableEq

/-- `ModuleRuntime` from `app.rs`: the execution task handle plus the optional
messaging companion info. -/
structure ModuleRuntime where
  module_task_handle : ExecHandle
  module_mqtt_event_loop_task_info : Option MqttEventLoopTaskInfo
  deriving Repr, DecidableEq

/-- `ModuleData` from `app.rs`: the compiled template plus the optional active
runtime record. -/
structure ModuleData where
  module_template : InitializedModule
  runtime : Option ModuleRuntime
  deriving Repr, DecidableEq

/-- The initialized context: the module mapping in iteration order. -/
abbrev InitializedAppContext := List (String × ModuleData)

/-- Observable effects of one `run_all_modules` pass. -/
inductive StartEvent
  | spawnMqttLoop (name : String)
  | logMqttError (name : String)
  | spawnExec (name : String)
  deriving Repr, DecidableEq

/-- Modelled from the spec: `initialize_mqtt_for_module` lives in `module.rs`,
which is not among the provided sources. Per the spec (§3, §4.3), absence of
the messaging sub-configuration means no connection is attempted (`None` is
returned and the module runs with no messaging capability); otherwise the
result of the connection attempt is returned. -/
def initialize_mqtt_for_module (cfg : ModuleRuntimeConfig)
    (connectOutcome : Except String MqttRuntime) :
    Option (Except String MqttRuntime) :=
  match cfg.mqtt with
  | none => none
  | some _ => some connectOutcome

/-- The body of the `for` loop of `run_all_modules` for one module: returns the
updated `ModuleData` (or the fatal error that `?` propagates, leaving the
module untouched) together with the events performed. Mirrors
`src/app.rs` lines 169-224. -/
def runModuleStep (name : String) (md : ModuleData) :
    Except String ModuleData × List StartEvent :=
  match md.runtime with
  | some _ => (Except.ok md, [])
  | none =>
    let t := md.module_template
    let step :=
      match initialize_mqtt_for_module t.runtime_config t.mqttConnectOutcome with
      | none => ((none : Option MqttEventLoopTaskInfo), ([] : List StartEvent))
      | some (Except.ok rt) =>
          (some ⟨rt.sendResult, rt.loopJoin⟩, [StartEvent.spawnMqttLoop name])
      | some (Except.error _) => (none, [StartEvent.logMqttError name])
    match t.instantiateResult with
    | Except.error e => (Except.error e, step.2)
    | Except.ok _ =>
      match t.startResolve with
      | Except.error e => (Except.error e, step.2)
      | Except.ok _ =>
        (Except.ok { md with runtime := some ⟨t.execHandle, step.1⟩ },
          step.2 ++ [StartEvent.spawnExec name])

/-- `InitializedAppContext::run_all_modules` (src/app.rs lines 168-228):
processes the module mapping in iteration order; a fatal per-module error
(`?` on `instantiate` or on resolving the `"start"` export) stops the loop
and is returned, leaving the failing module and all later modules unchanged.
Returns the mutated mapping, the events performed, and the error if any
(`none` models `Ok(())`). -/
def run_all_modules : InitializedAppContext →
    InitializedAppContext × List StartEvent × Option String
  | [] => ([], [], none)
  | (n, md) :: rest =>
    match runModuleStep n md with
    | (Except.ok md', evs) =>
      let r := run_all_modules rest
      ((n, md') :: r.1, evs ++ r.2.1, r.2.2)
    | (Except.error e, evs) => ((n, md) :: rest, evs, some e)

/-- Observable effects of one `cleanup_finished_modules` pass. -/
inductive CleanupEvent
  | sendShutdown (name : String)
  | awaitMqttTask (name : String)
  | collectExec (name : String)
  deriving Repr, DecidableEq

/-- The body of the `for` loop of `cleanup_finished_modules` for one module:
returns the updated `ModuleData`, either the collected result for this module
(`some r` if it was reaped, `none` if skipped) or the fatal error that `?`
propagates, and the events performed. Mirrors `src/app.rs` lines 139-162. -/
def cleanupStep (name : String) (md : ModuleData) :
    ModuleData × Except String (Option WasmResult) × List CleanupEvent :=
  match md.runtime with
  | none => (md, Except.ok none, [])
  | some rt =>
    if rt.module_task_handle.isFinished then
      let md' : ModuleData := { md with runtime := none }
      match rt.module_mqtt_event_loop_task_info with
      | some info =>
        match info.sendResult with
        | Except.error e => (md', Except.error e, [CleanupEvent.sendShutdown name])
        | Except.ok _ =>
          match info.loopJoin with
          | Except.error e =>
            (md', Except.error e,
              [CleanupEvent.sendShutdown name, CleanupEvent.awaitMqttTask name])
          | Except.ok _ =>
            match rt.module_task_handle.joinResult with
            | Except.error e =>
              (md', Except.error e,
                [CleanupEvent.sendShutdown name, CleanupEvent.awaitMqttTask name,
                  CleanupEvent.collectExec name])
            | Except.ok r =>
              (md', Except.ok (some r),
                [CleanupEvent.sendShutdown name, CleanupEvent.awaitMqttTask name,
                  CleanupEvent.collectExec name])
      | none =>
        match rt.module_task_handle.joinResult with
        | Except.error e => (md', Except.error e, [CleanupEvent.collectExec name])
        | Except.ok r => (md', Except.ok (some r), [CleanupEvent.collectExec name])
    else (md, Except.ok none, [])

/-- Result of one `cleanup_finished_modules` pass: the mutated mapping, the
returned value (`Except.ok` with the collected per-module results, or the
fatal error — the Rust `Vec` of already-collected results is dropped on
error), and the events performed. -/
structure CleanupOut where
  modules : InitializedAppContext
  result : Except String (List WasmResult)
  trace : List CleanupEvent
  deriving Repr, DecidableEq

/-- `InitializedAppContext::cleanup_finished_modules` (src/app.rs lines
134-166): scans the mapping in iteration order, reaping each module whose
execution task has finished; a fatal error (`?` on the shutdown-signal send or
on awaiting either task handle) stops the loop and is returned, with the
mutations performed so far kept and the collected results discarded. -/
def cleanup_finished_modules : InitializedAppContext → CleanupOut
  | [] => ⟨[], Except.ok [], []⟩
  | (n, md) :: rest =>
    match cleanupStep n md with
    | (md', Except.error e, tr) => ⟨(n, md') :: rest, Except.error e, tr⟩
    | (md', Except.ok ro, tr) =>
      let r := cleanup_finished_modules rest
      ⟨(n, md') :: r.modules,
        match r.result with
        | Except.error e => Except.error e
        | Except.ok rs => Except.ok (ro.toList ++ rs),
        tr ++ r.trace⟩

/-- `ModuleConfig` (from `module.rs`): the per-module configuration entry,
holding the bytecode path and the runtime configuration block. `readResult` is
the filesystem oracle: the outcome of `std::fs::read(&wasm_module_path)`
(bytes, or an I/O error). -/
structure ModuleConfig where
  wasm_module_path : String
  runtime : ModuleRuntimeConfig
  readResult : Except String (List Nat)
  deriving Repr, DecidableEq

/-- `UninitializedModule<ModuleRuntimeConfig>` from `app.rs`: loaded bytecode
plus runtime configuration, together with the oracle outcomes of the external
calls `initialize_modules` makes for this module: `compileResult`
(`Module::from_binary`), `mqttLinkResult` (`mqtt_api::add_to_linker`) and
`debugLinkResult` (`debug_api::add_to_linker`). -/
structure UninitializedModule where
  bytes : List Nat
  runtime_config : ModuleRuntimeConfig
  compileResult : Except String Unit
  mqttLinkResult : Except String Unit
  debugLinkResult : Except String Unit
  deriving Repr, DecidableEq

/-- The uninitialized context: the module mapping in iteration order. -/
abbrev UninitializedAppContext := List (String × UninitializedModule)

/-- `UninitializedAppContext::new` (src/app.rs lines 71-91): reads each
configured module's bytecode; `collect` into `Result` stops at the first
failing read, so any unreadable file fails the whole construction and no
context is produced. The compile/link oracle outcomes of the produced
`UninitializedModule`s are supplied by `oracle` (they are determined later by
the engine, not by `new`). -/
def UninitializedAppContext.new
    (oracle : String → List Nat →
      Except String Unit × Except String Unit × Except String Unit) :
    List (String × ModuleConfig) → Except String UninitializedAppContext
  | [] => Except.ok []
  | (n, c) :: rest =>
    match c.readResult with
    | Except.error e => Except.error e
    | Except.ok bs =>
      match UninitializedAppContext.new oracle rest with
      | Except.error e => Except.error e
      | Except.ok ms =>
        Except.ok ((n,
          { bytes := bs
            runtime_config := c.runtime
            compileResult := (oracle n bs).1
            mqttLinkResult := (oracle n bs).2.1
            debugLinkResult := (oracle n bs).2.2 }) :: ms)

/-- Per-module template production of `initialize_modules`, keeping the oracle
outcomes for the start phase from `startOracle`
(mqtt connection, instantiate, start resolution, spawned exec handle). -/
def initializeOne (m : UninitializedModule)
    (startOracle : Except String MqttRuntime × Except String Unit ×
      Except String Unit × ExecHandle) : ModuleData :=
  { module_template :=
      { runtime_config := m.runtime_config
        mqttConnectOutcome := startOracle.1
        instantiateResult := startOracle.2.1
        startResolve := startOracle.2.2.1
        execHandle := startOracle.2.2.2 }
    runtime := none }

/-- `UninitializedAppContext::initialize_modules` (src/app.rs lines 93-130):
consumes the uninitialized context; for each module, compiles the bytecode
(`Module::from_binary?`) and builds the capability linker
(`mqtt_api::add_to_linker?`, then `debug_api::add_to_linker?`); `collect` into
`Result` stops at the first failure, so any single failure aborts the whole
initialization and no initialized context is produced. Runtime records all
start out absent (`runtime := None`). `startOracle` supplies the later
start-phase oracle outcomes per module name. -/
def initialize_modules
    (startOracle : String → Except String MqttRuntime × Except String Unit ×
      Except String Unit × ExecHandle) :
    UninitializedAppContext → Except String InitializedAppContext
  | [] => Except.ok []
  | (n, m) :: rest =>
    match m.compileResult with
    | Except.error e => Except.error e
    | Except.ok _ =>
      match m.mqttLinkResult with
      | Except.error e => Except.error e
      | Except.ok _ =>
        match m.debugLinkResult with
        | Except.error e => Except.error e
        | Except.ok _ =>
          match initialize_modules startOracle rest with
          | Except.error e => Except.error e
          | Except.ok ms => Except.ok ((n, initializeOne m (startOracle n)) :: ms)

/-! ### Concrete fixtures for witnesses and counterexamples -/

/-- A finished execution task whose own result was `Ok(())`. -/
def hFinishedOk : ExecHandle := ⟨true, Except.ok (Except.ok ())⟩

/-- A still-running execution task. -/
def hStillRunning : ExecHandle := ⟨false, Except.ok (Except.ok ())⟩

/-- A finished execution task whose own result was a trap. -/
def hFinishedTrap : ExecHandle := ⟨true, Except.ok (Except.error "trap: unreachable")⟩

/-- A finished execution task whose `JoinHandle` itself fails to await. -/
def hJoinFailure : ExecHandle := ⟨true, Except.error "task join failure"⟩

/-- A template for a module with no messaging sub-configuration whose
instantiate/start-resolution/execution all succeed. -/
def tmplPlain : InitializedModule :=
  ⟨⟨none⟩, Except.error "mqtt not configured", Except.ok (), Except.ok (), hFinishedOk⟩

/-- A template for a module with messaging configured whose connection attempt
fails; instantiate/start-resolution/execution all succeed. -/
def tmplMqttConnFail : InitializedModule :=
  ⟨⟨some ()⟩, Except.error "mqtt broker unreachable", Except.ok (), Except.ok (),
    hFinishedOk⟩

/-- A template for a module with messaging configured whose connection attempt
succeeds. -/
def tmplMqttOk : InitializedModule :=
  ⟨⟨some ()⟩, Except.ok ⟨Except.ok (), Except.ok (Except.ok ())⟩, Except.ok (),
    Except.ok (), hFinishedOk⟩

/-- A template whose instantiated instance has no resolvable `"start"` export. -/
def tmplNoStart : InitializedModule :=
  ⟨⟨none⟩, Except.error "mqtt not configured", Except.ok (),
    Except.error "start export missing", hFinishedOk⟩

/-- An idle module (no runtime record), plain template. -/
def mdIdle : ModuleData := ⟨tmplPlain, none⟩

/-- An idle module whose `"start"` export cannot be resolved. -/
def mdNoStart : ModuleData := ⟨tmplNoStart, none⟩

/-- A currently running module. -/
def mdRunning : ModuleData := ⟨tmplPlain, some ⟨hStillRunning, none⟩⟩

/-- A module whose execution finished with `Ok(())`, no companion. -/
def mdFinished : ModuleData := ⟨tmplPlain, some ⟨hFinishedOk, none⟩⟩

/-- A module whose execution finished with a trap, no companion. -/
def mdFinishedTrap : ModuleData := ⟨tmplPlain, some ⟨hFinishedTrap, none⟩⟩

/-- A companion whose shutdown send and task await both succeed. -/
def infoOk : MqttEventLoopTaskInfo := ⟨Except.ok (), Except.ok (Except.ok ())⟩

/-- A companion whose shutdown-signal send fails (receiver gone). -/
def infoSendFail : MqttEventLoopTaskInfo :=
  ⟨Except.error "channel closed", Except.ok (Except.ok ())⟩

/-- A module whose execution finished, with a fully healthy companion. -/
def mdFinishedMqtt : ModuleData := ⟨tmplMqttOk, some ⟨hFinishedOk, some infoOk⟩⟩

/-- A module whose execution finished, with a companion whose shutdown-signal
send fails. -/
def mdFinishedSendFail : ModuleData := ⟨tmplMqttOk, some ⟨hFinishedOk, some infoSendFail⟩⟩

/-- A module whose execution finished but whose execution task handle fails to
await (infrastructure-level join failure), no companion. -/
def mdJoinFailure : ModuleData := ⟨tmplPlain, some ⟨hJoinFailure, none⟩⟩

/-- The plain idle module after a successful start: execution handle recorded,
no companion. -/
def mdStartedPlain : ModuleData := ⟨tmplPlain, some ⟨tmplPlain.execHandle, none⟩⟩

/-- An idle module with messaging configured whose connection attempt fails. -/
def mdMqttConnFail : ModuleData := ⟨tmplMqttConnFail, none⟩

/-- An idle module with messaging configured whose connection attempt
succeeds. -/
def mdMqttOk : ModuleData := ⟨tmplMqttOk, none⟩

/-- How many of the canonical per-module cleanup events
`[sendShutdown, awaitMqttTask, collectExec]` are performed for a reaped module
with a companion, as a function of the companion oracles: the send always
happens first; the companion await happens only if the send succeeded; the
execution result is awaited only if both completed. -/
def companionTraceLen (info : MqttEventLoopTaskInfo) : Nat :=
  match info.sendResult with
  | Except.error _ => 1
  | Except.ok _ =>
    match info.loopJoin with
    | Except.error _ => 2
    | Except.ok _ => 3

/-- The result `cleanup_finished_modules` collects for one module on a pass
with no fatal error: `some` the execution outcome when the module's execution
task has finished, `none` when the module is idle or still running. -/
def finishedResult (md : ModuleData) : Option WasmResult :=
  match md.runtime with
  | some rt =>
    if rt.module_task_handle.isFinished then
      match rt.module_task_handle.joinResult with
      | Except.ok r => some r
      | Except.error _ => none
    else none
  | none => none

/-- The per-module record after a cleanup pass with no fatal error: the
runtime record is removed exactly when the execution task had finished; idle
and still-running modules are left unchanged. -/
def reapRecord (md : ModuleData) : ModuleData :=
  match md.runtime with
  | some rt =>
    if rt.module_task_handle.isFinished then { md with runtime := none } else md
  | none => md

/-- A start-phase oracle used by fixtures: no messaging, instantiate and
`"start"` resolution succeed, execution finishes with `Ok(())`. -/
def soTrivial : String → Except String MqttRuntime × Except String Unit ×
    Except String Unit × ExecHandle :=
  fun _ => (Except.error "mqtt not configured", Except.ok (), Except.ok (),
    hFinishedOk)

/-- A compile/link oracle used by fixtures: compilation and both linker
registrations succeed for every module. -/
def oracleTrivial : String → List Nat →
    Except String Unit × Except String Unit × Except String Unit :=
  fun _ _ => (Except.ok (), Except.ok (), Except.ok ())

/-- A well-formed raw module: valid bytecode, everything compiles and links. -/
def umOk : UninitializedModule :=
  ⟨[0, 97, 115, 109, 1, 0, 0, 0], ⟨none⟩, Except.ok (), Except.ok (),
    Except.ok ()⟩

/-- A raw module with truncated/invalid bytecode: compilation fails. -/
def umBadBinary : UninitializedModule :=
  ⟨[0, 97], ⟨none⟩, Except.error "failed to parse WebAssembly module",
    Except.ok (), Except.ok ()⟩

/-- A module configuration whose bytecode file is readable. -/
def cfgOk : ModuleConfig :=
  ⟨"ok.wasm", ⟨none⟩, Except.ok [0, 97, 115, 109, 1, 0, 0, 0]⟩

/-- A module configuration whose bytecode file cannot be read. -/
def cfgUnreadable : ModuleConfig :=
  ⟨"missing.wasm", ⟨none⟩, Except.error "No such file or directory"⟩

/-- A raw module whose bytecode compiles but whose messaging capability
linker registration fails. -/
def umBadLink : UninitializedModule :=
  ⟨[0, 97, 115, 109, 1, 0, 0, 0], ⟨none⟩, Except.ok (),
    Except.error "duplicate import definition", Except.ok ()⟩

/-- A companion whose shutdown send succeeds but whose event-loop task handle
fails to await (infrastructure-level join failure of the mqtt task). -/
def infoJoinFail : MqttEventLoopTaskInfo :=
  ⟨Except.ok (), Except.error "mqtt task join failure"⟩

/-- A module whose execution finished, with a companion whose event-loop task
handle fails to await. -/
def mdMqttJoinFail : ModuleData := ⟨tmplMqttOk, some ⟨hFinishedOk, some infoJoinFail⟩⟩

/-! ### Start phase: helper lemmas -/

theorem runModuleStep_running (n : String) (md : ModuleData) (rt : ModuleRuntime)
    (h : md.runtime = some rt) : runModuleStep n md = (Except.ok md, []) := by
  simp [runModuleStep, h]

theorem runModuleStep_ok_some (n : String) (md md' : ModuleData)
    (evs : List StartEvent) (h : runModuleStep n md = (Except.ok md', evs)) :
    ∃ rt, md'.runtime = some rt := by
  rcases hrt : md.runtime with _ | rt
  · rcases hinst : md.module_template.instantiateResult with e | u
    · simp [runModuleStep, hrt, hinst] at h
    · rcases hres : md.module_template.startResolve with e | u
      · simp [runModuleStep, hrt, hinst, hres] at h
      · simp only [runModuleStep, hrt, hinst, hres, Prod.mk.injEq,
          Except.ok.injEq] at h
        obtain ⟨h1, h2⟩ := h
        subst h1
        exact ⟨_, rfl⟩
  · rw [runModuleStep_running n md rt hrt] at h
    have hmd : md' = md := by
      have := congrArg Prod.fst h
      simpa using this.symm
    exact ⟨rt, by rw [hmd, hrt]⟩

theorem run_all_append_ok (pre rest : InitializedAppContext)
    (h : (run_all_modules pre).2.2 = none) :
    run_all_modules (pre ++ rest)
      = ((run_all_modules pre).1 ++ (run_all_modules rest).1,
          (run_all_modules pre).2.1 ++ (run_all_modules rest).2.1,
          (run_all_modules rest).2.2) := by
  induction pre with
  | nil => simp [run_all_modules]
  | cons p pre ih =>
    obtain ⟨n, md⟩ := p
    rcases hstep : runModuleStep n md with ⟨res, evs⟩
    cases res with
    | error e => simp [run_all_modules, hstep] at h
    | ok md' =>
      have h' : (run_all_modules pre).2.2 = none := by
        simpa [run_all_modules, hstep] using h
      simp [run_all_modules, hstep, ih h', List.append_assoc]

theorem runModuleStep_start_resolution_failure (n : String) (md : ModuleData)
    (e : String) (hidle : md.runtime = none)
    (hinst : md.module_template.instantiateResult = Except.ok ())
    (hres : md.module_template.startResolve = Except.error e) :
    (runModuleStep n md).1 = Except.error e := by
  simp [runModuleStep, hidle, hinst, hres]

/-- C1 counterexample. The claim states that when one module's `"start"` export
cannot be resolved, all OTHER idle modules are still started in the same
`run_all_modules` call. Concretely: module `"a"` has no resolvable `"start"`
export and module `"b"` is idle and healthy; the call surfaces the error, but
the returned mapping is completely unchanged — in particular `"b"` is still
idle (its runtime record is absent), so it was NOT started. -/
theorem run_all_modules_no_start_aborts_pass_cex :
    (run_all_modules [("a", mdNoStart), ("b", mdIdle)]).2.2
        = some "start export missing"
    ∧ (run_all_modules [("a", mdNoStart), ("b", mdIdle)]).1
        = [("a", mdNoStart), ("b", mdIdle)]
    ∧ mdIdle.runtime = none :=
  ⟨rfl, rfl, rfl⟩

/-- C1 (amended): if resolving the `"start"` export fails for a module, that
fatal error is surfaced to the caller of `run_all_modules` and the module is
never recorded as active (its runtime record stays absent); idle modules
EARLIER in the iteration order have already been started, but the `?` operator
aborts the pass, so the failing module and ALL LATER modules are left
untouched (later idle modules are not started in that call). -/
theorem run_all_modules_start_resolution_failure
    (pre post : InitializedAppContext) (n : String) (md : ModuleData)
    (e : String)
    (hpre : (run_all_modules pre).2.2 = none)
    (hidle : md.runtime = none)
    (hinst : md.module_template.instantiateResult = Except.ok ())
    (hres : md.module_template.startResolve = Except.error e) :
    ∃ evs, run_all_modules (pre ++ (n, md) :: post)
      = ((run_all_modules pre).1 ++ (n, md) :: post,
          (run_all_modules pre).2.1 ++ evs, some e) := by
  rw [run_all_append_ok pre ((n, md) :: post) hpre]
  rcases hstep : runModuleStep n md with ⟨res, evs⟩
  have hres1 : res = Except.error e := by
    have hh := runModuleStep_start_resolution_failure n md e hidle hinst hres
    rw [hstep] at hh
    exact hh
  subst hres1
  exact ⟨evs, by simp [run_all_modules, hstep]⟩

/-- Witness for the amended C1 theorem at a concrete context: one healthy idle
module before, the failing module, one healthy idle module after. -/
theorem run_all_modules_start_resolution_failure_witness :
    (run_all_modules [("p", mdIdle)]).2.2 = none
    ∧ mdNoStart.runtime = none
    ∧ mdNoStart.module_template.instantiateResult = Except.ok ()
    ∧ mdNoStart.module_template.startResolve = Except.error "start export missing"
    ∧ ∃ evs,
        run_all_modules ([("p", mdIdle)] ++ ("a", mdNoStart) :: [("b", mdIdle)])
          = ((run_all_modules [("p", mdIdle)]).1 ++ ("a", mdNoStart) :: [("b", mdIdle)],
              (run_all_modules [("p", mdIdle)]).2.1 ++ evs,
              some "start export missing") :=
  ⟨rfl, rfl, rfl, rfl,
    run_all_modules_start_resolution_failure [("p", mdIdle)] [("b", mdIdle)] "a"
      mdNoStart "start export missing" rfl rfl rfl rfl⟩

theorem runModuleStep_spawnExec_name (n m : String) (md : ModuleData)
    (h : StartEvent.spawnExec m ∈ (runModuleStep n md).2) : m = n := by
  rcases hrt : md.runtime with _ | rt
  · rcases hmq : initialize_mqtt_for_module md.module_template.runtime_config
        md.module_template.mqttConnectOutcome with _ | r
    · rcases hinst : md.module_template.instantiateResult with e | u
      · simp [runModuleStep, hrt, hmq, hinst] at h
      · rcases hres : md.module_template.startResolve with e | u <;>
          simp [runModuleStep, hrt, hmq, hinst, hres] at h
        exact h
    · rcases r with e | r
      · rcases hinst : md.module_template.instantiateResult with e1 | u
        · simp [runModuleStep, hrt, hmq, hinst] at h
        · rcases hres : md.module_template.startResolve with e1 | u <;>
            simp [runModuleStep, hrt, hmq, hinst, hres] at h
          exact h
      · rcases hinst : md.module_template.instantiateResult with e1 | u
        · simp [runModuleStep, hrt, hmq, hinst] at h
        · rcases hres : md.module_template.startResolve with e1 | u <;>
            simp [runModuleStep, hrt, hmq, hinst, hres] at h
          exact h
  · rw [runModuleStep_running n md rt hrt] at h
    simp at h

/-- C2: a module has at most one `ModuleRuntime` at a time. On any
`run_all_modules` pass (successful or aborted): (1) every module whose
runtime record is present is left completely untouched (pointwise over the
mapping); (2) an execution task is spawned only for modules whose record was
absent; (3) if the pass succeeded, running it again immediately (no
intervening reap) changes nothing and spawns no task at all — the event list
of the second pass is empty. -/
theorem run_all_modules_at_most_one_runtime
    (ms ms₁ : InitializedAppContext) (evs : List StartEvent)
    (err : Option String)
    (h : run_all_modules ms = (ms₁, evs, err)) :
    List.Forall₂ (fun p q : String × ModuleData =>
        ∀ rt, p.2.runtime = some rt → q = p) ms ms₁
    ∧ (∀ m, StartEvent.spawnExec m ∈ evs →
        ∃ p ∈ ms, p.1 = m ∧ p.2.runtime = none)
    ∧ (err = none → run_all_modules ms₁ = (ms₁, [], none)) := by
  induction ms generalizing ms₁ evs err with
  | nil =>
    simp only [run_all_modules, Prod.mk.injEq] at h
    obtain ⟨h1, h2, -⟩ := h
    subst h1; subst h2
    refine ⟨List.Forall₂.nil, ?_, fun _ => rfl⟩
    intro m hm
    simp at hm
  | cons p ms ih =>
    obtain ⟨n₀, md₀⟩ := p
    rcases hstep : runModuleStep n₀ md₀ with ⟨res, evs₀⟩
    cases res with
    | error e =>
      simp only [run_all_modules, hstep, Prod.mk.injEq] at h
      obtain ⟨h1, h2, h3⟩ := h
      subst h1; subst h2
      have hidle0 : md₀.runtime = none := by
        rcases hrt0 : md₀.runtime with _ | rt0
        · rfl
        · rw [runModuleStep_running n₀ md₀ rt0 hrt0] at hstep
          simp at hstep
      refine ⟨?_, ?_, ?_⟩
      · exact (List.forall₂_same).mpr (fun x _ rt _ => rfl)
      · intro m hm
        have hname := runModuleStep_spawnExec_name n₀ m md₀
          (by rw [hstep]; exact hm)
        exact ⟨(n₀, md₀), List.mem_cons_self _ _, hname.symm, hidle0⟩
      · intro hc
        rw [← h3] at hc
        cases hc
    | ok md' =>
      rcases hrest : run_all_modules ms with ⟨ms₂, evs₂, err₂⟩
      simp only [run_all_modules, hstep, hrest, Prod.mk.injEq] at h
      obtain ⟨h1, h2, h3⟩ := h
      subst h1; subst h2
      rw [h3] at hrest
      obtain ⟨ih1, ih2, ih3⟩ := ih ms₂ evs₂ err hrest
      refine ⟨?_, ?_, ?_⟩
      · refine List.Forall₂.cons ?_ ih1
        intro rt hrt
        have := runModuleStep_running n₀ md₀ rt hrt
        rw [hstep] at this
        simp only [Prod.mk.injEq, Except.ok.injEq] at this
        rw [this.1]
      · intro m hm
        rcases List.mem_append.mp hm with hm0 | hm2
        · have hname := runModuleStep_spawnExec_name n₀ m md₀ (by rw [hstep]; exact hm0)
          rcases hrt0 : md₀.runtime with _ | rt0
          · exact ⟨(n₀, md₀), List.mem_cons_self _ _, hname.symm, hrt0⟩
          · rw [runModuleStep_running n₀ md₀ rt0 hrt0] at hstep
            simp only [Prod.mk.injEq] at hstep
            rw [← hstep.2] at hm0
            simp at hm0
        · obtain ⟨q, hq, hq1, hq2⟩ := ih2 m hm2
          exact ⟨q, List.mem_cons_of_mem _ hq, hq1, hq2⟩
      · intro hc
        obtain ⟨rt', hrt'⟩ := runModuleStep_ok_some n₀ md₀ md' evs₀ hstep
        simp [run_all_modules, runModuleStep_running n₀ md' rt' hrt', ih3 hc]

/-- Witness for C2 at a concrete context with one running and one idle
module: the pass starts only the idle one, and a second pass is a no-op. -/
theorem run_all_modules_at_most_one_runtime_witness :
    run_all_modules [("r", mdRunning), ("i", mdIdle)]
      = ([("r", mdRunning), ("i", mdStartedPlain)], [StartEvent.spawnExec "i"], none)
    ∧ (List.Forall₂ (fun p q : String × ModuleData =>
          ∀ rt, p.2.runtime = some rt → q = p)
        [("r", mdRunning), ("i", mdIdle)] [("r", mdRunning), ("i", mdStartedPlain)]
      ∧ (∀ m, StartEvent.spawnExec m ∈ [StartEvent.spawnExec "i"] →
          ∃ p ∈ [("r", mdRunning), ("i", mdIdle)], p.1 = m ∧ p.2.runtime = none)
      ∧ ((none : Option String) = none →
          run_all_modules [("r", mdRunning), ("i", mdStartedPlain)]
            = ([("r", mdRunning), ("i", mdStartedPlain)], [], none))) :=
  ⟨rfl, run_all_modules_at_most_one_runtime
    [("r", mdRunning), ("i", mdIdle)]
    [("r", mdRunning), ("i", mdStartedPlain)] [StartEvent.spawnExec "i"] none rfl⟩

theorem runModuleStep_mqtt_degraded (n : String) (md : ModuleData) (e : String)
    (hidle : md.runtime = none)
    (hmq : md.module_template.runtime_config.mqtt = some ())
    (hconn : md.module_template.mqttConnectOutcome = Except.error e)
    (hinst : md.module_template.instantiateResult = Except.ok ())
    (hres : md.module_template.startResolve = Except.ok ()) :
    runModuleStep n md
      = (Except.ok { md with runtime := some ⟨md.module_template.execHandle, none⟩ },
          [StartEvent.logMqttError n, StartEvent.spawnExec n]) := by
  simp [runModuleStep, initialize_mqtt_for_module, hidle, hmq, hconn, hinst, hres]

/-- C4: a module whose runtime configuration declares messaging but whose
connection attempt fails is still started by `run_all_modules`: only the
error-log event (no companion spawn) is emitted for it, its runtime record is
created with NO `MqttEventLoopTaskInfo`, and the failure is not surfaced as an
error (the pass's error component is whatever the remaining modules yield,
independent of this module). -/
theorem run_all_modules_messaging_degraded
    (pre post : InitializedAppContext) (n : String) (md : ModuleData)
    (e : String)
    (hpre : (run_all_modules pre).2.2 = none)
    (hidle : md.runtime = none)
    (hmq : md.module_template.runtime_config.mqtt = some ())
    (hconn : md.module_template.mqttConnectOutcome = Except.error e)
    (hinst : md.module_template.instantiateResult = Except.ok ())
    (hres : md.module_template.startResolve = Except.ok ()) :
    run_all_modules (pre ++ (n, md) :: post)
      = ((run_all_modules pre).1
          ++ (n, { md with runtime := some ⟨md.module_template.execHandle, none⟩ })
          :: (run_all_modules post).1,
        (run_all_modules pre).2.1
          ++ StartEvent.logMqttError n :: StartEvent.spawnExec n
          :: (run_all_modules post).2.1,
        (run_all_modules post).2.2) := by
  rw [run_all_append_ok pre ((n, md) :: post) hpre]
  have hstep := runModuleStep_mqtt_degraded n md e hidle hmq hconn hinst hres
  simp [run_all_modules, hstep]

/-- Witness for C4: a single module with messaging configured whose broker is
unreachable still starts, degraded, with no companion and no error. -/
theorem run_all_modules_messaging_degraded_witness :
    (run_all_modules ([] : InitializedAppContext)).2.2 = none
    ∧ mdMqttConnFail.runtime = none
    ∧ mdMqttConnFail.module_template.runtime_config.mqtt = some ()
    ∧ mdMqttConnFail.module_template.mqttConnectOutcome
        = Except.error "mqtt broker unreachable"
    ∧ mdMqttConnFail.module_template.instantiateResult = Except.ok ()
    ∧ mdMqttConnFail.module_template.startResolve = Except.ok ()
    ∧ run_all_modules ([] ++ ("c", mdMqttConnFail) :: [])
        = ((run_all_modules ([] : InitializedAppContext)).1
            ++ ("c", { mdMqttConnFail with runtime := some ⟨tmplMqttConnFail.execHandle, none⟩ })
            :: (run_all_modules ([] : InitializedAppContext)).1,
          (run_all_modules ([] : InitializedAppContext)).2.1
            ++ StartEvent.logMqttError "c" :: StartEvent.spawnExec "c"
            :: (run_all_modules ([] : InitializedAppContext)).2.1,
          (run_all_modules ([] : InitializedAppContext)).2.2) :=
  ⟨rfl, rfl, rfl, rfl, rfl, rfl,
    run_all_modules_messaging_degraded [] [] "c" mdMqttConnFail
      "mqtt broker unreachable" rfl rfl rfl rfl rfl rfl⟩

/-- C8: for an idle module, a companion event-loop task is spawned by the
start pass if and only if the runtime configuration declares messaging AND
the connection attempt succeeds; and whenever the start succeeds, the stored
runtime record holds a `MqttEventLoopTaskInfo` under exactly the same
condition. In particular a module with no messaging sub-configuration never
gets a companion task. -/
theorem runModuleStep_companion_iff (n : String) (md : ModuleData)
    (hidle : md.runtime = none) :
    (StartEvent.spawnMqttLoop n ∈ (runModuleStep n md).2
      ↔ (∃ c, md.module_template.runtime_config.mqtt = some c)
        ∧ ∃ r, md.module_template.mqttConnectOutcome = Except.ok r)
    ∧ ∀ md', (runModuleStep n md).1 = Except.ok md' →
        ((∃ rt info, md'.runtime = some rt
            ∧ rt.module_mqtt_event_loop_task_info = some info)
          ↔ (∃ c, md.module_template.runtime_config.mqtt = some c)
            ∧ ∃ r, md.module_template.mqttConnectOutcome = Except.ok r) := by
  rcases hmq : md.module_template.runtime_config.mqtt with _ | c <;>
    rcases hconn : md.module_template.mqttConnectOutcome with e | r <;>
      rcases hinst : md.module_template.instantiateResult with e1 | u1 <;>
        rcases hres : md.module_template.startResolve with e2 | u2 <;>
          constructor <;>
            simp [runModuleStep, initialize_mqtt_for_module, hidle, hmq, hconn,
              hinst, hres]

/-- Witness for C8 at a concrete idle module with messaging configured and a
successful connection. -/
theorem runModuleStep_companion_iff_witness :
    mdMqttOk.runtime = none
    ∧ ((StartEvent.spawnMqttLoop "k" ∈ (runModuleStep "k" mdMqttOk).2
        ↔ (∃ c, mdMqttOk.module_template.runtime_config.mqtt = some c)
          ∧ ∃ r, mdMqttOk.module_template.mqttConnectOutcome = Except.ok r)
      ∧ ∀ md', (runModuleStep "k" mdMqttOk).1 = Except.ok md' →
          ((∃ rt info, md'.runtime = some rt
              ∧ rt.module_mqtt_event_loop_task_info = some info)
            ↔ (∃ c, mdMqttOk.module_template.runtime_config.mqtt = some c)
              ∧ ∃ r, mdMqttOk.module_template.mqttConnectOutcome = Except.ok r)) :=
  ⟨rfl, runModuleStep_companion_iff "k" mdMqttOk rfl⟩

/-! ### Cleanup phase: helper lemmas -/

theorem cleanup_append_ok (pre rest : InitializedAppContext)
    (rs : List WasmResult)
    (h : (cleanup_finished_modules pre).result = Except.ok rs) :
    (cleanup_finished_modules (pre ++ rest)).modules
        = (cleanup_finished_modules pre).modules
          ++ (cleanup_finished_modules rest).modules
    ∧ (cleanup_finished_modules (pre ++ rest)).trace
        = (cleanup_finished_modules pre).trace
          ++ (cleanup_finished_modules rest).trace
    ∧ (cleanup_finished_modules (pre ++ rest)).result
        = (match (cleanup_finished_modules rest).result with
            | Except.error e => Except.error e
            | Except.ok rs2 => Except.ok (rs ++ rs2)) := by
  induction pre generalizing rs with
  | nil =>
    injection h with h1
    subst h1
    refine ⟨by simp [cleanup_finished_modules],
      by simp [cleanup_finished_modules], ?_⟩
    simp only [List.nil_append]
    rcases hr : (cleanup_finished_modules rest).result with e | rs2 <;> simp [hr]
  | cons p pre ih =>
    obtain ⟨n, md⟩ := p
    rcases hstep : cleanupStep n md with ⟨md', res, tr⟩
    cases res with
    | error e => simp [cleanup_finished_modules, hstep] at h
    | ok ro =>
      rcases hr : (cleanup_finished_modules pre).result with e | rs'
      · simp [cleanup_finished_modules, hstep, hr] at h
      · have hrs : rs = ro.toList ++ rs' := by
          simp only [cleanup_finished_modules, hstep, hr, Except.ok.injEq] at h
          exact h.symm
        obtain ⟨ih1, ih2, ih3⟩ := ih rs' hr
        subst hrs
        refine ⟨?_, ?_, ?_⟩
        · simp [cleanup_finished_modules, hstep, ih1]
        · simp [cleanup_finished_modules, hstep, ih2]
        · rcases hrr : (cleanup_finished_modules rest).result with e2 | rs2 <;>
            simp [cleanup_finished_modules, hstep, ih3, hrr, List.append_assoc]

theorem cleanupStep_companion_trace (n : String) (md : ModuleData)
    (rt : ModuleRuntime) (info : MqttEventLoopTaskInfo)
    (hrt : md.runtime = some rt)
    (hfin : rt.module_task_handle.isFinished = true)
    (hinfo : rt.module_mqtt_event_loop_task_info = some info) :
    (cleanupStep n md).2.2
      = [CleanupEvent.sendShutdown n, CleanupEvent.awaitMqttTask n,
          CleanupEvent.collectExec n].take (companionTraceLen info) := by
  rcases hsend : info.sendResult with e | u
  · simp [cleanupStep, companionTraceLen, hrt, hfin, hinfo, hsend]
  · rcases hjoin : info.loopJoin with e | r
    · simp [cleanupStep, companionTraceLen, hrt, hfin, hinfo, hsend, hjoin]
    · rcases hexec : rt.module_task_handle.joinResult with e | r2 <;>
        simp [cleanupStep, companionTraceLen, hrt, hfin, hinfo, hsend, hjoin,
          hexec]

theorem cleanup_cons_trace (n : String) (md : ModuleData)
    (rest : InitializedAppContext) :
    ∃ t2, (cleanup_finished_modules ((n, md) :: rest)).trace
      = (cleanupStep n md).2.2 ++ t2 := by
  rcases hstep : cleanupStep n md with ⟨md', res, tr⟩
  cases res with
  | error e => exact ⟨[], by simp [cleanup_finished_modules, hstep]⟩
  | ok ro =>
    exact ⟨(cleanup_finished_modules rest).trace,
      by simp [cleanup_finished_modules, hstep]⟩

/-- C5: for a module reaped with a companion, the per-module cleanup events
form the contiguous ordered block
`[sendShutdown, awaitMqttTask, collectExec]` (truncated only where an error
cut the step short, per `companionTraceLen`): the shutdown signal is sent
strictly before the companion task is awaited, and the execution result is
collected only after both. `pre` is the part of the mapping already processed
without a fatal error. -/
theorem cleanup_shutdown_before_await_before_collect
    (pre post : InitializedAppContext) (n : String) (md : ModuleData)
    (rt : ModuleRuntime) (info : MqttEventLoopTaskInfo) (rs : List WasmResult)
    (hpre : (cleanup_finished_modules pre).result = Except.ok rs)
    (hrt : md.runtime = some rt)
    (hfin : rt.module_task_handle.isFinished = true)
    (hinfo : rt.module_mqtt_event_loop_task_info = some info) :
    ∃ t2, (cleanup_finished_modules (pre ++ (n, md) :: post)).trace
      = (cleanup_finished_modules pre).trace
        ++ [CleanupEvent.sendShutdown n, CleanupEvent.awaitMqttTask n,
              CleanupEvent.collectExec n].take (companionTraceLen info)
        ++ t2 := by
  obtain ⟨-, h2, -⟩ := cleanup_append_ok pre ((n, md) :: post) rs hpre
  obtain ⟨t2, ht⟩ := cleanup_cons_trace n md post
  refine ⟨t2, ?_⟩
  rw [h2, ht, cleanupStep_companion_trace n md rt info hrt hfin hinfo]
  simp [List.append_assoc]

/-- Witness for C5: one already-reaped module before, then a finished module
with a healthy companion; its three events appear in send–await–collect
order. -/
theorem cleanup_shutdown_before_await_before_collect_witness :
    (cleanup_finished_modules [("a", mdFinished)]).result = Except.ok [Except.ok ()]
    ∧ mdFinishedMqtt.runtime = some ⟨hFinishedOk, some infoOk⟩
    ∧ (⟨hFinishedOk, some infoOk⟩ : ModuleRuntime).module_task_handle.isFinished = true
    ∧ (⟨hFinishedOk, some infoOk⟩ : ModuleRuntime).module_mqtt_event_loop_task_info
        = some infoOk
    ∧ ∃ t2, (cleanup_finished_modules
          ([("a", mdFinished)] ++ ("m", mdFinishedMqtt) :: [])).trace
        = (cleanup_finished_modules [("a", mdFinished)]).trace
          ++ [CleanupEvent.sendShutdown "m", CleanupEvent.awaitMqttTask "m",
                CleanupEvent.collectExec "m"].take (companionTraceLen infoOk)
          ++ t2 :=
  ⟨rfl, rfl, rfl, rfl,
    cleanup_shutdown_before_await_before_collect [("a", mdFinished)] [] "m"
      mdFinishedMqtt ⟨hFinishedOk, some infoOk⟩ infoOk [Except.ok ()]
      rfl rfl rfl rfl⟩

theorem cleanupStep_fatal (n : String) (md : ModuleData)
    (rt : ModuleRuntime) (e : String)
    (hrt : md.runtime = some rt)
    (hfin : rt.module_task_handle.isFinished = true)
    (hfail :
      (∃ info, rt.module_mqtt_event_loop_task_info = some info
        ∧ info.sendResult = Except.error e)
      ∨ (∃ info, rt.module_mqtt_event_loop_task_info = some info
          ∧ info.sendResult = Except.ok () ∧ info.loopJoin = Except.error e)
      ∨ (∃ info, rt.module_mqtt_event_loop_task_info = some info
          ∧ info.sendResult = Except.ok () ∧ (∃ r, info.loopJoin = Except.ok r)
          ∧ rt.module_task_handle.joinResult = Except.error e)
      ∨ (rt.module_mqtt_event_loop_task_info = none
          ∧ rt.module_task_handle.joinResult = Except.error e)) :
    ∃ tr, cleanupStep n md
      = ({ md with runtime := none }, Except.error e, tr) := by
  rcases hfail with ⟨info, hinfo, hsend⟩ | ⟨info, hinfo, hsend, hjoin⟩ |
    ⟨info, hinfo, hsend, ⟨r, hjoin⟩, hexec⟩ | ⟨hinfo, hexec⟩
  · exact ⟨[CleanupEvent.sendShutdown n],
      by simp [cleanupStep, hrt, hfin, hinfo, hsend]⟩
  · exact ⟨[CleanupEvent.sendShutdown n, CleanupEvent.awaitMqttTask n],
      by simp [cleanupStep, hrt, hfin, hinfo, hsend, hjoin]⟩
  · exact ⟨[CleanupEvent.sendShutdown n, CleanupEvent.awaitMqttTask n,
        CleanupEvent.collectExec n],
      by simp [cleanupStep, hrt, hfin, hinfo, hsend, hjoin, hexec]⟩
  · exact ⟨[CleanupEvent.collectExec n],
      by simp [cleanupStep, hrt, hfin, hinfo, hexec]⟩

/-- C6: if awaiting a task handle itself fails during the cleanup pass
(infrastructure-level join failure) — whether it is the companion event-loop
task's handle (`task_handle.await?`) or the execution task's handle
(`module_task_handle.await?`), with or without a companion present — the
call returns that fatal error and no further module is reaped: every module
after the failing one is returned completely unchanged. `pre` is the part of
the mapping already processed without a fatal error. -/
theorem cleanup_join_failure_fatal
    (pre post : InitializedAppContext) (n : String) (md : ModuleData)
    (rt : ModuleRuntime) (e : String) (rs : List WasmResult)
    (hpre : (cleanup_finished_modules pre).result = Except.ok rs)
    (hrt : md.runtime = some rt)
    (hfin : rt.module_task_handle.isFinished = true)
    (hawait :
      (∃ info, rt.module_mqtt_event_loop_task_info = some info
          ∧ info.sendResult = Except.ok () ∧ info.loopJoin = Except.error e)
      ∨ (∃ info, rt.module_mqtt_event_loop_task_info = some info
          ∧ info.sendResult = Except.ok () ∧ (∃ r, info.loopJoin = Except.ok r)
          ∧ rt.module_task_handle.joinResult = Except.error e)
      ∨ (rt.module_mqtt_event_loop_task_info = none
          ∧ rt.module_task_handle.joinResult = Except.error e)) :
    (cleanup_finished_modules (pre ++ (n, md) :: post)).result = Except.error e
    ∧ (cleanup_finished_modules (pre ++ (n, md) :: post)).modules
        = (cleanup_finished_modules pre).modules
          ++ (n, { md with runtime := none }) :: post := by
  obtain ⟨h1, -, h3⟩ := cleanup_append_ok pre ((n, md) :: post) rs hpre
  obtain ⟨tr, hstep⟩ := cleanupStep_fatal n md rt e hrt hfin (Or.inr hawait)
  constructor
  · rw [h3]
    simp [cleanup_finished_modules, hstep]
  · rw [h1]
    simp [cleanup_finished_modules, hstep]

/-- Witness for C6 at the await failure of a companion event-loop task's
handle: a reapable module before, the mqtt-join-failing module, and a
finished (reapable) module after that is left untouched. -/
theorem cleanup_join_failure_fatal_witness :
    (cleanup_finished_modules [("a", mdFinished)]).result = Except.ok [Except.ok ()]
    ∧ mdMqttJoinFail.runtime = some ⟨hFinishedOk, some infoJoinFail⟩
    ∧ hFinishedOk.isFinished = true
    ∧ infoJoinFail.sendResult = Except.ok ()
    ∧ infoJoinFail.loopJoin = Except.error "mqtt task join failure"
    ∧ ((cleanup_finished_modules
          ([("a", mdFinished)] ++ ("m", mdMqttJoinFail) :: [("t", mdFinishedTrap)])).result
        = Except.error "mqtt task join failure"
      ∧ (cleanup_finished_modules
          ([("a", mdFinished)] ++ ("m", mdMqttJoinFail) :: [("t", mdFinishedTrap)])).modules
        = (cleanup_finished_modules [("a", mdFinished)]).modules
          ++ ("m", { mdMqttJoinFail with runtime := none }) :: [("t", mdFinishedTrap)]) :=
  ⟨rfl, rfl, rfl, rfl, rfl,
    cleanup_join_failure_fatal [("a", mdFinished)] [("t", mdFinishedTrap)] "m"
      mdMqttJoinFail ⟨hFinishedOk, some infoJoinFail⟩ "mqtt task join failure"
      [Except.ok ()] rfl rfl rfl
      (Or.inl ⟨infoJoinFail, rfl, rfl, rfl⟩)⟩

/-- C7: cleanup is not atomic on error. Whenever processing a module fails —
the shutdown-signal send fails, or any task-await fails (the companion
event-loop handle's await, or the execution handle's await with or without a
companion) — the call returns that error; the failing module's runtime
record has ALREADY been removed (it is not restored), and the results
collected for modules reaped earlier in the same pass are discarded — the
call never returns an `ok` list. `pre` is the part of the mapping already
processed without a fatal error, whose collected results `rs` are dropped. -/
theorem cleanup_error_not_atomic
    (pre post : InitializedAppContext) (n : String) (md : ModuleData)
    (rt : ModuleRuntime) (e : String)
    (rs : List WasmResult)
    (hpre : (cleanup_finished_modules pre).result = Except.ok rs)
    (hrt : md.runtime = some rt)
    (hfin : rt.module_task_handle.isFinished = true)
    (hfail :
      (∃ info, rt.module_mqtt_event_loop_task_info = some info
        ∧ info.sendResult = Except.error e)
      ∨ (∃ info, rt.module_mqtt_event_loop_task_info = some info
          ∧ info.sendResult = Except.ok () ∧ info.loopJoin = Except.error e)
      ∨ (∃ info, rt.module_mqtt_event_loop_task_info = some info
          ∧ info.sendResult = Except.ok () ∧ (∃ r, info.loopJoin = Except.ok r)
          ∧ rt.module_task_handle.joinResult = Except.error e)
      ∨ (rt.module_mqtt_event_loop_task_info = none
          ∧ rt.module_task_handle.joinResult = Except.error e)) :
    (cleanup_finished_modules (pre ++ (n, md) :: post)).result = Except.error e
    ∧ (∀ rs2, (cleanup_finished_modules (pre ++ (n, md) :: post)).result
        ≠ Except.ok rs2)
    ∧ (cleanup_finished_modules (pre ++ (n, md) :: post)).modules
        = (cleanup_finished_modules pre).modules
          ++ (n, { md with runtime := none }) :: post := by
  obtain ⟨h1, -, h3⟩ := cleanup_append_ok pre ((n, md) :: post) rs hpre
  obtain ⟨tr, hstep⟩ := cleanupStep_fatal n md rt e hrt hfin hfail
  have hres : (cleanup_finished_modules (pre ++ (n, md) :: post)).result
      = Except.error e := by
    rw [h3]
    simp [cleanup_finished_modules, hstep]
  refine ⟨hres, ?_, ?_⟩
  · intro rs2
    rw [hres]
    simp
  · rw [h1]
    simp [cleanup_finished_modules, hstep]

/-- Witness for C7: module `"a"` is reaped first (its `Ok` result is
collected), then module `"s"`'s shutdown send fails: the error is returned,
`"a"`'s collected result is discarded, and `"s"`'s record is already gone. -/
theorem cleanup_error_not_atomic_witness :
    (cleanup_finished_modules [("a", mdFinished)]).result = Except.ok [Except.ok ()]
    ∧ mdFinishedSendFail.runtime = some ⟨hFinishedOk, some infoSendFail⟩
    ∧ hFinishedOk.isFinished = true
    ∧ infoSendFail.sendResult = Except.error "channel closed"
    ∧ ((cleanup_finished_modules
          ([("a", mdFinished)] ++ ("s", mdFinishedSendFail) :: [])).result
        = Except.error "channel closed"
      ∧ (∀ rs2, (cleanup_finished_modules
          ([("a", mdFinished)] ++ ("s", mdFinishedSendFail) :: [])).result
          ≠ Except.ok rs2)
      ∧ (cleanup_finished_modules
          ([("a", mdFinished)] ++ ("s", mdFinishedSendFail) :: [])).modules
        = (cleanup_finished_modules [("a", mdFinished)]).modules
          ++ ("s", { mdFinishedSendFail with runtime := none }) :: []) :=
  ⟨rfl, rfl, rfl, rfl,
    cleanup_error_not_atomic [("a", mdFinished)] [] "s" mdFinishedSendFail
      ⟨hFinishedOk, some infoSendFail⟩ "channel closed"
      [Except.ok ()] rfl rfl rfl
      (Or.inl ⟨infoSendFail, rfl, rfl⟩)⟩

theorem cleanupStep_ok_shape (n : String) (md md' : ModuleData)
    (ro : Option WasmResult) (tr : List CleanupEvent)
    (h : cleanupStep n md = (md', Except.ok ro, tr)) :
    md' = reapRecord md ∧ ro = finishedResult md := by
  rcases hrt : md.runtime with _ | rt
  · simp only [cleanupStep, hrt, Prod.mk.injEq, Except.ok.injEq] at h
    simp [reapRecord, finishedResult, hrt, h.1.symm, h.2.1.symm]
  · rcases hfin : rt.module_task_handle.isFinished with _ | _
    · simp only [cleanupStep, hrt, hfin, Bool.false_eq_true, if_false,
        Prod.mk.injEq, Except.ok.injEq] at h
      simp [reapRecord, finishedResult, hrt, hfin, h.1.symm, h.2.1.symm]
    · rcases hinfo : rt.module_mqtt_event_loop_task_info with _ | info
      · rcases hexec : rt.module_task_handle.joinResult with e | r
        · simp [cleanupStep, hrt, hfin, hinfo, hexec] at h
        · simp only [cleanupStep, hrt, hfin, hinfo, hexec, if_true,
            Prod.mk.injEq, Except.ok.injEq] at h
          simp [reapRecord, finishedResult, hrt, hfin, hexec, h.1.symm,
            h.2.1.symm]
      · rcases hsend : info.sendResult with e | u
        · simp [cleanupStep, hrt, hfin, hinfo, hsend] at h
        · rcases hjoin : info.loopJoin with e | r0
          · simp [cleanupStep, hrt, hfin, hinfo, hsend, hjoin] at h
          · rcases hexec : rt.module_task_handle.joinResult with e | r
            · simp [cleanupStep, hrt, hfin, hinfo, hsend, hjoin, hexec] at h
            · simp only [cleanupStep, hrt, hfin, hinfo, hsend, hjoin, hexec,
                if_true, Prod.mk.injEq, Except.ok.injEq] at h
              simp [reapRecord, finishedResult, hrt, hfin, hexec, h.1.symm,
                h.2.1.symm]

/-- C10: on a pass with no fatal error, `cleanup_finished_modules` returns
exactly one result per finished module, in the iteration order of the module
mapping (`filterMap` of `finishedResult`), and rewrites every record by
`reapRecord`: finished modules become idle, while still-running and idle
modules contribute no entry and are left completely unchanged. -/
theorem cleanup_ok_results_shape (ms : InitializedAppContext)
    (rs : List WasmResult)
    (h : (cleanup_finished_modules ms).result = Except.ok rs) :
    rs = ms.filterMap (fun p => finishedResult p.2)
    ∧ (cleanup_finished_modules ms).modules
        = ms.map (fun p => (p.1, reapRecord p.2)) := by
  induction ms generalizing rs with
  | nil =>
    injection h with h1
    subst h1
    simp [cleanup_finished_modules]
  | cons p ms ih =>
    obtain ⟨n, md⟩ := p
    rcases hstep : cleanupStep n md with ⟨md', res, tr⟩
    cases res with
    | error e => simp [cleanup_finished_modules, hstep] at h
    | ok ro =>
      rcases hr : (cleanup_finished_modules ms).result with e | rs'
      · simp [cleanup_finished_modules, hstep, hr] at h
      · obtain ⟨hm, hro⟩ := cleanupStep_ok_shape n md md' ro tr hstep
        obtain ⟨ih1, ih2⟩ := ih rs' hr
        have hrs : rs = ro.toList ++ rs' := by
          simp only [cleanup_finished_modules, hstep, hr, Except.ok.injEq] at h
          exact h.symm
        subst hrs
        constructor
        · rcases hfo : finishedResult md with _ | r <;>
            simp [List.filterMap_cons, hfo, hro, ih1]
        · simp [cleanup_finished_modules, hstep, hm, ih2]

/-- Witness for C10 on a mixed context: one finished-ok, one still-running,
one idle, one finished-with-trap module; exactly the two finished modules
contribute results, in mapping order, and only they are reset to idle. -/
theorem cleanup_ok_results_shape_witness :
    (cleanup_finished_modules
        [("a", mdFinished), ("r", mdRunning), ("i", mdIdle), ("t", mdFinishedTrap)]).result
      = Except.ok [Except.ok (), Except.error "trap: unreachable"]
    ∧ ([Except.ok (), Except.error "trap: unreachable"]
        = List.filterMap (fun p : String × ModuleData => finishedResult p.2)
            [("a", mdFinished), ("r", mdRunning), ("i", mdIdle), ("t", mdFinishedTrap)]
      ∧ (cleanup_finished_modules
          [("a", mdFinished), ("r", mdRunning), ("i", mdIdle), ("t", mdFinishedTrap)]).modules
        = List.map (fun p : String × ModuleData => (p.1, reapRecord p.2))
            [("a", mdFinished), ("r", mdRunning), ("i", mdIdle), ("t", mdFinishedTrap)]) :=
  ⟨rfl, cleanup_ok_results_shape
    [("a", mdFinished), ("r", mdRunning), ("i", mdIdle), ("t", mdFinishedTrap)]
    [Except.ok (), Except.error "trap: unreachable"] rfl⟩

/-! ### Uninitialized phase: C3 and C9 -/

/-- C3: `initialize_modules` consumes the uninitialized context; if
compilation OR capability-linker construction fails for any single module —
whichever of `Module::from_binary`, `mqtt_api::add_to_linker`,
`debug_api::add_to_linker` fails first for it, with error `e` — the whole
initialization fails with that error and no initialized context is ever
produced: no module, including otherwise-valid ones, becomes observable in
the initialized phase. `pre` is the part of the mapping that initializes
successfully on its own. -/
theorem initialize_modules_all_or_nothing
    (so : String → Except String MqttRuntime × Except String Unit ×
        Except String Unit × ExecHandle)
    (pre post : UninitializedAppContext) (n : String)
    (m : UninitializedModule) (e : String)
    (hpre : ∃ ds, initialize_modules so pre = Except.ok ds)
    (hfail : m.compileResult = Except.error e
      ∨ (m.compileResult = Except.ok () ∧ m.mqttLinkResult = Except.error e)
      ∨ (m.compileResult = Except.ok () ∧ m.mqttLinkResult = Except.ok ()
          ∧ m.debugLinkResult = Except.error e)) :
    initialize_modules so (pre ++ (n, m) :: post) = Except.error e
    ∧ ∀ ctx, initialize_modules so (pre ++ (n, m) :: post) ≠ Except.ok ctx := by
  obtain ⟨ds, hds⟩ := hpre
  have hhead : initialize_modules so ((n, m) :: post) = Except.error e := by
    rcases hfail with hc | ⟨hc, hm⟩ | ⟨hc, hm, hd⟩
    · simp [initialize_modules, hc]
    · simp [initialize_modules, hc, hm]
    · simp [initialize_modules, hc, hm, hd]
  have h1 : initialize_modules so (pre ++ (n, m) :: post) = Except.error e := by
    induction pre generalizing ds with
    | nil => simpa using hhead
    | cons p pre ih =>
      obtain ⟨n₀, m₀⟩ := p
      rcases hc : m₀.compileResult with e0 | u0
      · simp [initialize_modules, hc] at hds
      · rcases hmq : m₀.mqttLinkResult with e0 | u1
        · simp [initialize_modules, hc, hmq] at hds
        · rcases hdb : m₀.debugLinkResult with e0 | u2
          · simp [initialize_modules, hc, hmq, hdb] at hds
          · rcases hi : initialize_modules so pre with e1 | ds1
            · simp [initialize_modules, hc, hmq, hdb, hi] at hds
            · simp [initialize_modules, hc, hmq, hdb, ih ds1 hi]
  exact ⟨h1, by rw [h1]; simp⟩

/-- Witness for C3 at a capability-linker construction failure: a valid
module, then one whose messaging-linker registration fails, then another
valid module; initialization fails outright with the link error. -/
theorem initialize_modules_all_or_nothing_witness :
    (∃ ds, initialize_modules soTrivial [("good", umOk)] = Except.ok ds)
    ∧ umBadLink.compileResult = Except.ok ()
    ∧ umBadLink.mqttLinkResult = Except.error "duplicate import definition"
    ∧ (initialize_modules soTrivial
          ([("good", umOk)] ++ ("badlink", umBadLink) :: [("good2", umOk)])
        = Except.error "duplicate import definition"
      ∧ ∀ ctx, initialize_modules soTrivial
          ([("good", umOk)] ++ ("badlink", umBadLink) :: [("good2", umOk)])
        ≠ Except.ok ctx) :=
  ⟨⟨_, rfl⟩, rfl, rfl,
    initialize_modules_all_or_nothing soTrivial [("good", umOk)]
      [("good2", umOk)] "badlink" umBadLink "duplicate import definition"
      ⟨_, rfl⟩ (Or.inr (Or.inl ⟨rfl, rfl⟩))⟩

/-- C9: `UninitializedAppContext.new` loads every configured module's
bytecode; if ANY module's bytecode file cannot be read, it fails with that
I/O error and produces no context at all — no partial result containing the
readable modules is ever returned. `pre` is the part of the configuration
that loads successfully on its own. -/
theorem new_unreadable_file_fails
    (oracle : String → List Nat →
        Except String Unit × Except String Unit × Except String Unit)
    (pre post : List (String × ModuleConfig)) (n : String) (c : ModuleConfig)
    (e : String)
    (hpre : ∃ ms, UninitializedAppContext.new oracle pre = Except.ok ms)
    (hfail : c.readResult = Except.error e) :
    UninitializedAppContext.new oracle (pre ++ (n, c) :: post) = Except.error e
    ∧ ∀ ctx, UninitializedAppContext.new oracle (pre ++ (n, c) :: post)
        ≠ Except.ok ctx := by
  obtain ⟨ms, hms⟩ := hpre
  have h1 : UninitializedAppContext.new oracle (pre ++ (n, c) :: post)
      = Except.error e := by
    induction pre generalizing ms with
    | nil => simp [UninitializedAppContext.new, hfail]
    | cons p pre ih =>
      obtain ⟨n₀, c₀⟩ := p
      rcases hr : c₀.readResult with e0 | bs
      · simp [UninitializedAppContext.new, hr] at hms
      · rcases hn : UninitializedAppContext.new oracle pre with e1 | ms1
        · simp [UninitializedAppContext.new, hr, hn] at hms
        · simp [UninitializedAppContext.new, hr, ih ms1 hn]
  exact ⟨h1, by rw [h1]; simp⟩

/-- Witness for C9: a readable module, an unreadable one, another readable
one; context construction fails with the I/O error. -/
theorem new_unreadable_file_fails_witness :
    (∃ ms, UninitializedAppContext.new oracleTrivial [("good", cfgOk)]
        = Except.ok ms)
    ∧ cfgUnreadable.readResult = Except.error "No such file or directory"
    ∧ (UninitializedAppContext.new oracleTrivial
          ([("good", cfgOk)] ++ ("bad", cfgUnreadable) :: [("good2", cfgOk)])
        = Except.error "No such file or directory"
      ∧ ∀ ctx, UninitializedAppContext.new oracleTrivial
          ([("good", cfgOk)] ++ ("bad", cfgUnreadable) :: [("good2", cfgOk)])
        ≠ Except.ok ctx) :=
  ⟨⟨_, rfl⟩, rfl,
    new_unreadable_file_fails oracleTrivial [("good", cfgOk)]
      [("good2", cfgOk)] "bad" cfgUnreadable "No such file or directory"
      ⟨_, rfl⟩ rfl⟩

end WasmtimePoc
